import Mathlib

/-
  Verification of the cashflower (money-tracker-api) authentication core
  against its natural-language specification.

  The Go source is shallowly embedded: Mongo collections become Lists,
  repository methods become pure functions on those lists, time.Time becomes
  Int (instants on a discrete clock), and fallible Go functions return
  Except.  Randomly generated values (JTIs, Mongo-assigned ObjectIDs) are
  passed in as explicit parameters, mirroring the fact that the surrounding
  code receives them from an entropy source / the driver.
-/

namespace Cashflower

/-- Error values crossing the embedded repository / usecase boundary.
    errNoDocuments models mongo.ErrNoDocuments, errDuplicateKey models a
    Mongo unique-index violation (mongo.IsDuplicateKeyError); the remaining
    constructors are the sentinel error values declared in
    services/auth-service/internal/model/identity.go and
    services/auth-service/internal/usecase/auth.go. -/
inductive GoError where
  | errNoDocuments
  | errDuplicateKey
  | errTokenNotFound
  | errTokenAlreadyUsed
  | errTokenExpired
  | errInvalidToken
  | errUserAlreadyExists
  | errInvalidCredentials
  | errOther (msg : String)
  deriving DecidableEq, Repr

/-- PasswordResetToken record, from
    services/auth-service/internal/model/identity.go (model package). -/
structure PasswordResetToken where
  id : String
  userID : String
  jti : String
  email : String
  used : Bool
  expiresAt : Int
  createdAt : Int
  updatedAt : Int
  deriving DecidableEq, Repr

/-- User record, from services/auth-service/internal/model/user.go.
    Only the fields the verified operations touch are kept. -/
structure User where
  id : String
  email : String
  passwordHash : String
  updatedAt : Int
  deriving DecidableEq, Repr

/-- Identity record, from services/auth-service/internal/model/identity.go. -/
structure Identity where
  id : String
  userID : String
  providerID : String
  provider : String
  email : String
  lastLoginAt : Int
  createdAt : Int
  updatedAt : Int
  deriving DecidableEq, Repr

/- ## Reset-token repository
   services/auth-service/internal/repository/password_reset_token.go -/

/-- GetTokenByJTI: FindOne on filter (jti = given value).  FindOne returns
    the first matching document; mongo.ErrNoDocuments when none matches. -/
def getTokenByJTI (store : List PasswordResetToken) (jti : String) :
    Except GoError PasswordResetToken :=
  match store.find? (fun t => t.jti == jti) with
  | some t => .ok t
  | none => .error .errNoDocuments

/-- UpdateOne on filter (jti = given value) setting used := true and
    updated_at := now: the first matching document is updated.  Note the
    filter does NOT require used = false, and the Go function discards the
    UpdateResult, so the update is unconditional and its effect unchecked. -/
def markFirstMatching (jti : String) (now : Int) :
    List PasswordResetToken → List PasswordResetToken
  | [] => []
  | t :: rest =>
    if t.jti == jti then
      { t with used := true, updatedAt := now } :: rest
    else
      t :: markFirstMatching jti now rest

/-- MarkTokenAsUsed from password_reset_token.go lines 110-121: an
    unconditional UpdateOne keyed on jti alone, returning only the driver
    error (always absent in this embedding of a healthy store). -/
def markTokenAsUsed (store : List PasswordResetToken) (jti : String) (now : Int) :
    List PasswordResetToken :=
  markFirstMatching jti now store

/-- InvalidateUserTokens from password_reset_token.go lines 136-155:
    UpdateMany on filter (user_id = uid AND used = false) setting
    used := true and updated_at := now. -/
def invalidateUserTokens (store : List PasswordResetToken) (uid : String) (now : Int) :
    List PasswordResetToken :=
  store.map (fun t =>
    if t.userID == uid && t.used == false then
      { t with used := true, updatedAt := now }
    else t)

/-- CreateToken from password_reset_token.go lines 74-93: stamps
    created_at / updated_at, forces used := false, and inserts.  The
    collection has a unique index on jti (lines 47-51), so inserting a
    duplicate jti fails with a duplicate-key error and stores nothing. -/
def createToken (store : List PasswordResetToken) (t : PasswordResetToken) (now : Int) :
    Except GoError (List PasswordResetToken) :=
  if store.any (fun u => u.jti == t.jti) then
    .error .errDuplicateKey
  else
    .ok (store ++ [{ t with createdAt := now, updatedAt := now, used := false }])

/- ## User repository (src/unnamed user repository file, Mongo-backed) -/

/-- GetUserByEmail: FindOne on filter (email = given value). -/
def getUserByEmail (users : List User) (email : String) : Except GoError User :=
  match users.find? (fun u => u.email == email) with
  | some u => .ok u
  | none => .error .errNoDocuments

/-- UpdateUser restricted to the PasswordHash field (the only use in the
    verified flows): FindOneAndUpdate on _id, setting password_hash and
    updated_at; mongo.ErrNoDocuments when the user is absent. -/
def updateUserPassword (users : List User) (uid : String) (hash : String) (now : Int) :
    Except GoError (List User) :=
  if users.any (fun u => u.id == uid) then
    .ok (users.map (fun u =>
      if u.id == uid then { u with passwordHash := hash, updatedAt := now } else u))
  else
    .error .errNoDocuments

/-- CreateUser from the user repository: InsertOne into a collection with a
    unique index on email; a duplicate email fails with a duplicate-key
    error and stores nothing.  The driver-assigned ObjectID is passed in
    as uid. -/
def createUser (users : List User) (email : String) (hash : String)
    (uid : String) (now : Int) : Except GoError (List User × User) :=
  if users.any (fun u => u.email == email) then
    .error .errDuplicateKey
  else
    let u : User := { id := uid, email := email, passwordHash := hash, updatedAt := now }
    .ok (users ++ [u], u)

/- ## Security helpers -/

/-- Modelled from the spec: the shared/security package (HashPassword,
    VerifyPassword) is not among the provided source files.  Per the spec it
    hashes a password with a salted hash and verifies a password against a
    stored hash by a constant-time comparison, with no error on a plain
    mismatch.  Both are modelled as opaque-but-pure function parameters. -/
structure SecurityModel where
  hashPassword : String → String
  verifyPassword : String → String → Bool

/- ## Password-reset usecase state
   services/auth-service/internal/model/identity.go (usecase package) -/

/-- Record of one outbound mail handed to the mailer (recipient list and
    subject; the body is not needed by any claim). -/
structure SentMail where
  recipients : List String
  subject : String
  deriving DecidableEq, Repr

/-- Observable state of the password-reset flow: the users collection, the
    password_reset_tokens collection, and the mails sent so far. -/
structure ResetState where
  users : List User
  tokens : List PasswordResetToken
  sent : List SentMail
  deriving DecidableEq, Repr

/-- RequestPasswordReset from identity.go lines 107-163.  The fresh random
    JTI produced by generateJTI and the configured TTL are parameters; the
    mailer outcome is the oracle parameter mailOk (SendHTML either delivers
    or reports an error).  An unknown email returns success with the state
    untouched (lines 110-116). -/
def requestPasswordReset (st : ResetState) (email : String) (now : Int)
    (jti : String) (ttl : Int) (mailOk : Bool) :
    ResetState × Except GoError Unit :=
  match getUserByEmail st.users email with
  | .error e =>
    if e = .errNoDocuments then (st, .ok ()) else (st, .error e)
  | .ok user =>
    let tokens1 := invalidateUserTokens st.tokens user.id now
    let fresh : PasswordResetToken :=
      { id := (""), userID := user.id, jti := jti, email := user.email,
        used := false, expiresAt := now + ttl, createdAt := now, updatedAt := now }
    match createToken tokens1 fresh now with
    | .error e => ({ st with tokens := tokens1 }, .error e)
    | .ok tokens2 =>
      if mailOk then
        ({ st with
            tokens := tokens2,
            sent := st.sent ++
              [{ recipients := [user.email], subject := ("Password Reset Request") }] },
         .ok ())
      else
        ({ st with tokens := tokens2 }, .error (.errOther ("mailer send failed")))

/-- ResetPassword from identity.go lines 165-203: read the token by JTI
    (TokenNotFound when absent), reject if used, reject if now is after
    expiresAt, then hash the new password, update the user record, and
    finally mark the token used via the unconditional MarkTokenAsUsed. -/
def resetPassword (sec : SecurityModel) (st : ResetState)
    (jti : String) (newPassword : String) (now : Int) :
    ResetState × Except GoError Unit :=
  match getTokenByJTI st.tokens jti with
  | .error e =>
    if e = .errNoDocuments then (st, .error .errTokenNotFound) else (st, .error e)
  | .ok t =>
    if t.used then (st, .error .errTokenAlreadyUsed)
    else if t.expiresAt < now then (st, .error .errTokenExpired)
    else
      match updateUserPassword st.users t.userID (sec.hashPassword newPassword) now with
      | .error e => (st, .error e)
      | .ok users1 =>
        ({ st with users := users1, tokens := markTokenAsUsed st.tokens jti now },
         .ok ())

/-- ValidatePasswordResetToken from identity.go lines 205-225: the same
    three checks as resetPassword but with no mutation at all, which the
    embedding reflects by returning no state. -/
def validatePasswordResetToken (st : ResetState) (jti : String) (now : Int) :
    Except GoError Unit :=
  match getTokenByJTI st.tokens jti with
  | .error e =>
    if e = .errNoDocuments then .error .errTokenNotFound else .error e
  | .ok t =>
    if t.used then .error .errTokenAlreadyUsed
    else if t.expiresAt < now then .error .errTokenExpired
    else .ok ()

/- ## Symbolic JWT layer
   shared/auth/jwt.go on top of github.com/golang-jwt/jwt/v5.  Signing is
   modelled symbolically: a signed token records the algorithm, the claims
   and the secret it was signed with, and signature verification checks
   secret equality (the standard symbolic-crypto reading of an HMAC). -/

/-- Signing algorithms that can appear in a token header. -/
inductive JWTAlg where
  | hs256
  | hs384
  | hs512
  | rs256
  deriving DecidableEq, Repr

/-- Membership of the jwt.SigningMethodHMAC family, which the keyfunc in
    shared/auth/jwt.go tests with a type assertion. -/
def JWTAlg.isHMAC : JWTAlg → Bool
  | .hs256 => true
  | .hs384 => true
  | .hs512 => true
  | .rs256 => false

/-- Registered claims subset used by the code (jwt.RegisteredClaims).
    Absent optional claims are none. -/
structure RegisteredClaims where
  issuer : String
  audience : List String
  subject : String
  expiresAt : Option Int
  issuedAt : Option Int
  notBefore : Option Int
  deriving DecidableEq, Repr

/-- Claims payload of authtypes.JWTClaims: user and session identifiers
    plus the registered claims. -/
structure JWTClaims where
  userID : String
  sessionID : String
  registered : RegisteredClaims
  deriving DecidableEq, Repr

/-- Symbolic signed token. -/
structure SignedToken where
  alg : JWTAlg
  claims : JWTClaims
  signedWith : String
  deriving DecidableEq, Repr

/-- Verification failures of the jwt/v5 parser under the options set in
    shared/auth/jwt.go. -/
inductive JWTError where
  | invalidAlg
  | unexpectedMethod
  | signatureInvalid
  | missingExpiry
  | expired
  | notYetValid
  | audienceMismatch
  | issuerMismatch
  deriving DecidableEq, Repr

/-- JWTAuthenticator from shared/auth/jwt.go: stateless, carrying only its
    configured audience and issuer. -/
structure JWTAuthenticator where
  audience : String
  issuer : String
  deriving DecidableEq, Repr

/-- GenerateToken from shared/auth/jwt.go lines 26-35: signs the claims
    with HS256 and the given secret; the symbolic signing step never
    fails. -/
def jwtGenerateToken (claims : JWTClaims) (secret : String) : SignedToken :=
  { alg := .hs256, claims := claims, signedWith := secret }

/-- ValidateTokenWithClaims from shared/auth/jwt.go lines 56-78, i.e.
    jwt.ParseWithClaims under WithValidMethods([HS256]),
    WithExpirationRequired, WithAudience(a.audience), WithIssuer(a.issuer),
    and a keyfunc that additionally requires an HMAC-family method.
    Rejects the token when its algorithm is not HS256, when its symbolic
    signature does not match the secret, when the mandatory expiry claim is
    absent, when the time bounds are violated, or when the audience or
    issuer does not match the authenticator's configuration. -/
def validateTokenWithClaims (a : JWTAuthenticator) (tok : SignedToken)
    (secret : String) (now : Int) : Except JWTError JWTClaims :=
  if tok.alg ≠ .hs256 then .error .invalidAlg
  else if ¬tok.alg.isHMAC then .error .unexpectedMethod
  else if tok.signedWith ≠ secret then .error .signatureInvalid
  else
    match tok.claims.registered.expiresAt with
    | none => .error .missingExpiry
    | some exp =>
      if ¬(now < exp) then .error .expired
      else
        match tok.claims.registered.notBefore with
        | some nbf =>
          if now < nbf then .error .notYetValid
          else if ¬tok.claims.registered.audience.contains a.audience then
            .error .audienceMismatch
          else if tok.claims.registered.issuer ≠ a.issuer then .error .issuerMismatch
          else .ok tok.claims
        | none =>
          if ¬tok.claims.registered.audience.contains a.audience then
            .error .audienceMismatch
          else if tok.claims.registered.issuer ≠ a.issuer then .error .issuerMismatch
          else .ok tok.claims

/- ## Session repository (src/unnamed session repository file) -/

/-- Session record from the model package (token fields are none until the
    first UpdateTokens). -/
structure Session where
  id : String
  userID : String
  accessToken : Option SignedToken
  refreshToken : Option SignedToken
  accessTokenExpiresAt : Int
  refreshTokenExpiresAt : Int
  createdAt : Int
  updatedAt : Int
  deriving DecidableEq, Repr

/-- CreateSession: InsertOne of a session with empty token fields; the
    driver-assigned ObjectID is the parameter sid (unique by the _id
    index). -/
def createSession (sessions : List Session) (userID : String) (sid : String)
    (now : Int) : Except GoError (List Session) :=
  if sessions.any (fun s => s.id == sid) then
    .error .errDuplicateKey
  else
    .ok (sessions ++
      [{ id := sid, userID := userID, accessToken := none, refreshToken := none,
         accessTokenExpiresAt := 0, refreshTokenExpiresAt := 0,
         createdAt := now, updatedAt := now }])

/-- UpdateTokens params struct from the session repository. -/
structure UpdateTokensParams where
  accessToken : SignedToken
  refreshToken : SignedToken
  accessTokenExpiresAt : Int
  refreshTokenExpiresAt : Int
  deriving DecidableEq, Repr

/-- UpdateTokens: FindOneAndUpdate on _id setting the four token fields;
    mongo.ErrNoDocuments when the session is absent. -/
def updateTokens (sessions : List Session) (sid : String) (p : UpdateTokensParams) :
    Except GoError (List Session) :=
  if sessions.any (fun s => s.id == sid) then
    .ok (sessions.map (fun s =>
      if s.id == sid then
        { s with
            accessToken := some p.accessToken,
            refreshToken := some p.refreshToken,
            accessTokenExpiresAt := p.accessTokenExpiresAt,
            refreshTokenExpiresAt := p.refreshTokenExpiresAt }
      else s))
  else
    .error .errNoDocuments

/- ## Identity repository
   services/auth-service/internal/repository/identity.go -/

/-- CreateIdentity: InsertOne (no unique index on this collection). -/
def createIdentity (identities : List Identity) (i : Identity) (now : Int) :
    List Identity :=
  identities ++ [{ i with createdAt := now, updatedAt := now }]

/-- UpdateLastLogin from identity.go (repository) lines 104-111: UpdateOne
    on filter (user_id = uid) setting last_login_at; the first matching
    document is updated, and a zero-match update is still a success. -/
def updateLastLogin (identities : List Identity) (uid : String) (now : Int) :
    List Identity :=
  match identities with
  | [] => []
  | i :: rest =>
    if i.userID == uid then { i with lastLoginAt := now } :: rest
    else i :: updateLastLogin rest uid now

/- ## Auth usecase: services/auth-service/internal/usecase/auth.go -/

/-- Token-related configuration from the auth-service config: issuer (also
    the sole accepted audience) plus a distinct secret and TTL per token
    purpose. -/
structure TokenConfig where
  issuer : String
  accessTokenSecret : String
  refreshTokenSecret : String
  accessTokenExpiresIn : Int
  refreshTokenExpiresIn : Int
  deriving DecidableEq, Repr

/-- Pair of tokens returned by Login and Register (authtypes.Tokens). -/
structure Tokens where
  accessToken : SignedToken
  refreshToken : SignedToken
  deriving DecidableEq, Repr

/-- Whole observable state of the auth usecase. -/
structure AuthState where
  users : List User
  identities : List Identity
  sessions : List Session
  deriving DecidableEq, Repr

/-- generateToken from auth.go lines 161-180: builds authtypes.JWTClaims
    with the user and session identifiers, IssuedAt and NotBefore now,
    ExpiresAt now + expiresIn, configured issuer, and the issuer as the
    single audience entry, then signs with the given secret. -/
def generateAuthToken (cfg : TokenConfig) (userID sessionID secret : String)
    (expiresIn : Int) (now : Int) : SignedToken :=
  jwtGenerateToken
    { userID := userID, sessionID := sessionID,
      registered :=
        { issuer := cfg.issuer, audience := [cfg.issuer], subject := (""),
          expiresAt := some (now + expiresIn), issuedAt := some now,
          notBefore := some now } }
    secret

/-- createAuthSession from auth.go lines 119-159: create the session
    record first (its identifier is embedded in the tokens), generate the
    access and refresh tokens with their own secrets and TTLs, persist both
    onto the session record in a single update, and return the pair. -/
def createAuthSession (cfg : TokenConfig) (st : AuthState) (userID sid : String)
    (now : Int) : AuthState × Except GoError Tokens :=
  match createSession st.sessions userID sid now with
  | .error e => (st, .error e)
  | .ok sessions1 =>
    let access := generateAuthToken cfg userID sid cfg.accessTokenSecret
      cfg.accessTokenExpiresIn now
    let refresh := generateAuthToken cfg userID sid cfg.refreshTokenSecret
      cfg.refreshTokenExpiresIn now
    match updateTokens sessions1 sid
        { accessToken := access, refreshToken := refresh,
          accessTokenExpiresAt := now + cfg.accessTokenExpiresIn,
          refreshTokenExpiresAt := now + cfg.refreshTokenExpiresIn } with
    | .error e => ({ st with sessions := sessions1 }, .error e)
    | .ok sessions2 =>
      ({ st with sessions := sessions2 },
       .ok { accessToken := access, refreshToken := refresh })

/-- Login from auth.go lines 66-87: an unknown email and a failed password
    verification both map to the single ErrInvalidCredentials value; on
    success the last-login timestamp is recorded and a session is issued.
    The Mongo-assigned session id is the parameter sid. -/
def login (sec : SecurityModel) (cfg : TokenConfig) (st : AuthState)
    (email password : String) (sid : String) (now : Int) :
    AuthState × Except GoError Tokens :=
  match getUserByEmail st.users email with
  | .error e =>
    if e = .errNoDocuments then (st, .error .errInvalidCredentials)
    else (st, .error e)
  | .ok user =>
    if sec.verifyPassword password user.passwordHash = false then
      (st, .error .errInvalidCredentials)
    else
      let st1 := { st with identities := updateLastLogin st.identities user.id now }
      createAuthSession cfg st1 user.id sid now

/-- Register from auth.go lines 89-117: hash the password, create the user
    (duplicate email maps to ErrUserAlreadyExists via the unique index),
    create the linked email identity, then issue a session.  The
    Mongo-assigned identifiers are the parameters uid, iid and sid. -/
def register (sec : SecurityModel) (cfg : TokenConfig) (st : AuthState)
    (email password : String) (uid iid sid : String) (now : Int) :
    AuthState × Except GoError Tokens :=
  let hash := sec.hashPassword password
  match createUser st.users email hash uid now with
  | .error e =>
    if e = .errDuplicateKey then (st, .error .errUserAlreadyExists)
    else (st, .error e)
  | .ok (users1, user) =>
    let identities1 := createIdentity st.identities
      { id := iid, userID := user.id, providerID := (""), provider := ("email"),
        email := user.email, lastLoginAt := 0, createdAt := now, updatedAt := now }
      now
    createAuthSession cfg { st with users := users1, identities := identities1 }
      user.id sid now

/- ## Request-authorization gate: shared/interceptor/jwt.go -/

/-- Incoming call context: the optional gRPC metadata (key / value pairs;
    metadata.MD stores keys lowercased and Get lowercases its argument) and
    the claims slot keyed by UserClaimsKey (context.WithValue). -/
structure IncomingCtx where
  md : Option (List (String × String))
  attachedClaims : Option JWTClaims
  deriving Repr

/-- ASCII lowercasing of one character (strings.ToLower restricted to the
    ASCII range, which covers metadata keys and the Bearer scheme). -/
def lowerChar (c : Char) : Char :=
  if 65 <= c.toNat && c.toNat <= 90 then Char.ofNat (c.toNat + 32) else c

/-- ASCII lowercasing of a string. -/
def lowerStr (s : String) : String :=
  { data := s.data.map lowerChar }

/-- metadata.MD.Get: all values whose key matches case-insensitively. -/
def mdGet (md : List (String × String)) (key : String) : List String :=
  md.filterMap (fun p => if lowerStr p.1 == lowerStr key then some p.2 else none)

/-- Split of a character list around its first space: none when no space
    occurs. -/
def breakAtSpace : List Char → Option (List Char × List Char)
  | [] => none
  | c :: rest =>
    if c = ' ' then some ([], rest)
    else
      match breakAtSpace rest with
      | none => none
      | some (pre, post) => some (c :: pre, post)

/-- strings.SplitN(s, " ", 2) as used by the interceptor: the part before
    the first space and the remainder, or the whole string when it contains
    no space. -/
def splitN2Space (s : String) : List String :=
  match breakAtSpace s.data with
  | none => [s]
  | some (pre, post) => [{ data := pre }, { data := post }]

/-- gRPC status produced by the interceptor on an authentication failure
    (status.Error(codes.Unauthenticated, msg)). -/
inductive GrpcStatus where
  | unauthenticated (msg : String)
  deriving DecidableEq, Repr

/-- extractAndValidateJWT from shared/interceptor/jwt.go lines 54-82:
    missing metadata, a missing Authorization header, and a header not of
    the exact two-part form with a case-insensitive Bearer scheme are all
    errors; otherwise the token string is handed to the authenticator,
    abstracted here as the validation function vjwt (the Go code closes
    over jwtAuth and the secret the same way). -/
def extractAndValidateJWT (vjwt : String → Except String JWTClaims)
    (ctx : IncomingCtx) : Except String JWTClaims :=
  match ctx.md with
  | none => .error ("missing metadata")
  | some md =>
    match mdGet md ("Authorization") with
    | [] => .error ("missing authorization header")
    | authHeader :: _ =>
      match splitN2Space authHeader with
      | [scheme, tokenString] =>
        if lowerStr scheme == ("bearer") then vjwt tokenString
        else .error ("invalid authorization header format")
      | _ => .error ("invalid authorization header format")

/-- NewJWTInterceptor from shared/interceptor/jwt.go lines 22-52: exempt
    methods are forwarded with the context unmodified; every other call
    must pass extractAndValidateJWT, whose failure becomes an
    Unauthenticated status, and whose claims are attached under
    UserClaimsKey before the handler runs. -/
def newJWTInterceptor {A : Type} (exemptMethods : List String)
    (vjwt : String → Except String JWTClaims) (method : String)
    (ctx : IncomingCtx) (handler : IncomingCtx → A) : Except GrpcStatus A :=
  if exemptMethods.contains method then
    .ok (handler ctx)
  else
    match extractAndValidateJWT vjwt ctx with
    | .error e => .error (.unauthenticated e)
    | .ok claims => .ok (handler { ctx with attachedClaims := some claims })

/- ## Interleaving model for concurrent ResetPassword calls

   Each ResetPassword call performs its store operations in program order:
   first the GetTokenByJTI read (followed by the pure used / expiry
   checks on the value read), then the writes (the user password update and
   the unconditional MarkTokenAsUsed).  A call is modelled as a small state
   machine over those atomic store transactions; grouping the two writes
   into one atomic step only removes interleavings relative to the real
   three-round-trip execution, so every behaviour of this model is a
   behaviour of the code. -/

/-- Progress of one in-flight ResetPassword call. -/
inductive RPPhase where
  | start
  | gotToken (t : PasswordResetToken)
  | done (r : Except GoError Unit)
  deriving Repr

/-- One atomic step of a ResetPassword call against the shared store. -/
def rpStep (sec : SecurityModel) (jti newPassword : String) (now : Int) :
    RPPhase → ResetState → RPPhase × ResetState
  | .start, st =>
    (match getTokenByJTI st.tokens jti with
     | .error e =>
       if e = .errNoDocuments then (.done (.error .errTokenNotFound), st)
       else (.done (.error e), st)
     | .ok t =>
       if t.used then (.done (.error .errTokenAlreadyUsed), st)
       else if t.expiresAt < now then (.done (.error .errTokenExpired), st)
       else (.gotToken t, st))
  | .gotToken t, st =>
    (match updateUserPassword st.users t.userID (sec.hashPassword newPassword) now with
     | .error e => (.done (.error e), st)
     | .ok users1 =>
       (.done (.ok ()),
        { st with users := users1, tokens := markTokenAsUsed st.tokens jti now }))
  | .done r, st => (.done r, st)

/-- Final outcome of running one call's two steps back to back (no
    interference). -/
def rpRunAlone (sec : SecurityModel) (jti newPassword : String) (now : Int)
    (st : ResetState) : RPPhase × ResetState :=
  let s1 := rpStep sec jti newPassword now .start st
  rpStep sec jti newPassword now s1.1 s1.2

/-- Outcome of the interleaving in which two calls A and B with the same
    JTI both perform their read before either performs its writes:
    A reads, B reads, A writes, B writes.  Returns both final phases and
    the final store. -/
def rpRunRace (sec : SecurityModel) (jti pwA pwB : String) (now : Int)
    (st : ResetState) : RPPhase × RPPhase × ResetState :=
  let a1 := rpStep sec jti pwA now .start st
  let b1 := rpStep sec jti pwB now .start a1.2
  let a2 := rpStep sec jti pwA now a1.1 b1.2
  let b2 := rpStep sec jti pwB now b1.1 a2.2
  (a2.1, b2.1, b2.2)

/- ## Concrete fixtures used by witnesses and counterexamples -/

/-- Concrete security model: hashing prefixes the password, verification
    recomputes the hash and compares. -/
def secF : SecurityModel :=
  { hashPassword := fun s => ("h:") ++ s,
    verifyPassword := fun p stored => stored == (("h:") ++ p) }

/-- Concrete token configuration. -/
def cfgF : TokenConfig :=
  { issuer := ("money-tracker"), accessTokenSecret := ("access-secret"),
    refreshTokenSecret := ("refresh-secret"), accessTokenExpiresIn := 10,
    refreshTokenExpiresIn := 100 }

/-- Concrete user record. -/
def userF : User :=
  { id := ("u1"), email := ("alice@example.com"), passwordHash := ("h:pw1"),
    updatedAt := 0 }

/-- Concrete unused, unexpired reset token for userF. -/
def tokenF : PasswordResetToken :=
  { id := ("t1"), userID := ("u1"), jti := ("j1"),
    email := ("alice@example.com"), used := false, expiresAt := 100,
    createdAt := 0, updatedAt := 0 }

/-- State holding userF and the valid token tokenF. -/
def raceState : ResetState :=
  { users := [userF], tokens := [tokenF], sent := [] }

/- ## Theorems -/

/-- C1: the spec requires consuming a reset token to be an atomic
    conditional update whose effect is checked, so that among concurrent
    resetPassword calls with one valid JTI exactly one succeeds.  The code
    instead re-reads and re-checks, and MarkTokenAsUsed neither filters on
    used = false nor inspects the update result: in the interleaving where
    both calls read before either writes, both calls succeed. -/
theorem resetPassword_race_both_succeed :
    (rpRunRace secF ("j1") ("pwA") ("pwB") 50 raceState).1
      = .done (.ok ()) ∧
    (rpRunRace secF ("j1") ("pwA") ("pwB") 50 raceState).2.1
      = .done (.ok ()) :=
  ⟨rfl, rfl⟩

/-- Sanity: one call of the step machine run to completion without
    interference computes exactly resetPassword. -/
theorem rpRunAlone_eq_resetPassword (sec : SecurityModel) (jti pw : String)
    (now : Int) (st : ResetState) :
    rpRunAlone sec jti pw now st =
      (.done (resetPassword sec st jti pw now).2,
       (resetPassword sec st jti pw now).1) := by
  unfold rpRunAlone resetPassword rpStep
  cases hget : getTokenByJTI st.tokens jti with
  | error e =>
    by_cases he : e = .errNoDocuments <;> simp [hget, he, rpStep]
  | ok t =>
    by_cases hu : t.used
    · simp [hget, hu, rpStep]
    · by_cases hexp : t.expiresAt < now
      · simp [hget, hu, hexp, rpStep]
      · cases hupd : updateUserPassword st.users t.userID (sec.hashPassword pw) now <;>
          simp [hget, hu, hexp, hupd, rpStep]

/-- C4: requestPasswordReset with an email matching no user returns
    success and leaves the entire observable state (users, tokens, sent
    mail) unchanged; NotFound is never surfaced. -/
theorem requestPasswordReset_unknown_email_noop
    (st : ResetState) (email : String) (now : Int) (jti : String) (ttl : Int)
    (mailOk : Bool) (h : ∀ u ∈ st.users, u.email ≠ email) :
    requestPasswordReset st email now jti ttl mailOk = (st, .ok ()) := by
  have hf : st.users.find? (fun u => u.email == email) = none :=
    List.find?_eq_none.mpr (by intro u hu; simpa using h u hu)
  simp [requestPasswordReset, getUserByEmail, hf]

/-- Witness for C4 at a concrete state. -/
theorem requestPasswordReset_unknown_email_noop_witness :
    requestPasswordReset { users := [userF], tokens := [], sent := [] }
      ("bob@example.com") 0 ("j9") 100 true
      = ({ users := [userF], tokens := [], sent := [] }, .ok ()) :=
  requestPasswordReset_unknown_email_noop _ _ _ _ _ _ (by decide)

/-- C5: login with an email matching no user and login with an existing
    email but a password failing verification return the identical error
    value ErrInvalidCredentials. -/
theorem login_error_indistinguishable
    (sec : SecurityModel) (cfg : TokenConfig) (st : AuthState)
    (email1 pw1 email2 pw2 sid1 sid2 : String) (now1 now2 : Int) (u : User)
    (h1 : ∀ v ∈ st.users, v.email ≠ email1)
    (h2 : getUserByEmail st.users email2 = .ok u)
    (h3 : sec.verifyPassword pw2 u.passwordHash = false) :
    (login sec cfg st email1 pw1 sid1 now1).2 = .error .errInvalidCredentials ∧
    (login sec cfg st email2 pw2 sid2 now2).2 = .error .errInvalidCredentials := by
  constructor
  · have hf : st.users.find? (fun v => v.email == email1) = none :=
      List.find?_eq_none.mpr (by intro v hv; simpa using h1 v hv)
    simp [login, getUserByEmail, hf]
  · simp [login, h2, h3]

/-- Witness for C5 at a concrete state. -/
theorem login_error_indistinguishable_witness :
    (login secF cfgF { users := [userF], identities := [], sessions := [] }
      ("bob@example.com") ("pw1") ("s1") 0).2 = .error .errInvalidCredentials ∧
    (login secF cfgF { users := [userF], identities := [], sessions := [] }
      ("alice@example.com") ("wrong") ("s2") 0).2 = .error .errInvalidCredentials :=
  login_error_indistinguishable secF cfgF _ _ _ _ _ _ _ _ _ userF
    (by decide) rfl (by decide)

/-- C7: a register call with an email that already has a user record fails
    with ErrUserAlreadyExists and changes nothing: no user, identity or
    session record is created. -/
theorem register_duplicate_email_conflict
    (sec : SecurityModel) (cfg : TokenConfig) (st : AuthState)
    (email password uid iid sid : String) (now : Int) (u : User)
    (hu : u ∈ st.users) (he : u.email = email) :
    register sec cfg st email password uid iid sid now
      = (st, .error .errUserAlreadyExists) := by
  have hd : st.users.any (fun v => v.email == email) = true :=
    List.any_eq_true.mpr ⟨u, hu, by simp [he]⟩
  simp [register, createUser, hd]

/-- Witness for C7 at a concrete state. -/
theorem register_duplicate_email_conflict_witness :
    register secF cfgF { users := [userF], identities := [], sessions := [] }
      ("alice@example.com") ("pw2") ("u2") ("i2") ("s2") 5
      = ({ users := [userF], identities := [], sessions := [] },
         .error .errUserAlreadyExists) :=
  register_duplicate_email_conflict secF cfgF _ _ _ _ _ _ _ userF
    (by decide) (by decide)

/-- C8: the authenticator rejects any token whose algorithm is not HS256,
    rejects any token without an expiry claim, and accepts a token only
    when it carries an expiry. -/
theorem validateToken_requires_hs256_and_expiry
    (a : JWTAuthenticator) (tok : SignedToken) (secret : String) (now : Int) :
    (tok.alg ≠ .hs256 →
      validateTokenWithClaims a tok secret now = .error .invalidAlg) ∧
    (tok.claims.registered.expiresAt = none →
      ∀ c, validateTokenWithClaims a tok secret now ≠ .ok c) ∧
    (∀ c, validateTokenWithClaims a tok secret now = .ok c →
      ∃ e, tok.claims.registered.expiresAt = some e) := by
  refine ⟨?_, ?_, ?_⟩
  · intro h
    simp [validateTokenWithClaims, h]
  · intro h c
    unfold validateTokenWithClaims
    split
    · simp
    · split
      · simp
      · split
        · simp
        · simp [h]
  · intro c hc
    unfold validateTokenWithClaims at hc
    split at hc
    · simp at hc
    · split at hc
      · simp at hc
      · split at hc
        · simp at hc
        · split at hc
          · simp at hc
          · next exp heq =>
            exact ⟨exp, heq⟩

/-- Concrete token without an expiry claim. -/
def tokNoExp : SignedToken :=
  { alg := .hs256,
    claims :=
      { userID := ("u1"), sessionID := ("s1"),
        registered :=
          { issuer := ("money-tracker"), audience := [("money-tracker")],
            subject := (""), expiresAt := none, issuedAt := none,
            notBefore := none } },
    signedWith := ("access-secret") }

/-- Concrete token with a non-HS256 algorithm. -/
def tokBadAlg : SignedToken :=
  { tokNoExp with alg := .rs256 }

/-- Witness for C8 at concrete tokens. -/
theorem validateToken_requires_hs256_and_expiry_witness :
    validateTokenWithClaims { audience := ("money-tracker"), issuer := ("money-tracker") }
      tokBadAlg ("access-secret") 0 = .error .invalidAlg ∧
    validateTokenWithClaims { audience := ("money-tracker"), issuer := ("money-tracker") }
      tokNoExp ("access-secret") 0 ≠ .ok tokNoExp.claims :=
  ⟨(validateToken_requires_hs256_and_expiry _ tokBadAlg _ 0).1 (by decide),
   (validateToken_requires_hs256_and_expiry _ tokNoExp _ 0).2.1 rfl tokNoExp.claims⟩

/-- C10: on a token record that is both used and past expiry, the used
    check runs first in both ValidatePasswordResetToken and ResetPassword,
    so both report ErrTokenAlreadyUsed, not ErrTokenExpired. -/
theorem usedCheck_precedes_expiryCheck
    (sec : SecurityModel) (st : ResetState) (jti pw : String) (now : Int)
    (t : PasswordResetToken) (hget : getTokenByJTI st.tokens jti = .ok t)
    (hused : t.used = true) (hexp : t.expiresAt < now) :
    validatePasswordResetToken st jti now = .error .errTokenAlreadyUsed ∧
    resetPassword sec st jti pw now = (st, .error .errTokenAlreadyUsed) := by
  constructor <;> simp [validatePasswordResetToken, resetPassword, hget, hused]

/-- Witness for C10: a token both used and expired at the current time. -/
theorem usedCheck_precedes_expiryCheck_witness :
    validatePasswordResetToken
      { users := [userF], tokens := [{ tokenF with used := true }], sent := [] }
      ("j1") 500 = .error .errTokenAlreadyUsed ∧
    resetPassword secF
      { users := [userF], tokens := [{ tokenF with used := true }], sent := [] }
      ("j1") ("npw") 500
      = ({ users := [userF], tokens := [{ tokenF with used := true }], sent := [] },
         .error .errTokenAlreadyUsed) :=
  usedCheck_precedes_expiryCheck secF _ _ ("npw") 500 { tokenF with used := true }
    rfl (by decide) (by decide)

/-- C3 counterexample: at the instant now = expiresAt the validation
    succeeds although the current time is not strictly before expiresAt,
    so the claimed characterization (success iff the record exists unused
    and now is strictly before expiresAt) does not hold as stated. -/
theorem validateToken_boundary_counterexample :
    validatePasswordResetToken
      { users := [userF], tokens := [{ tokenF with expiresAt := 50 }], sent := [] }
      ("j1") 50 = .ok () ∧ ¬((50 : Int) < 50) :=
  ⟨rfl, by decide⟩

/-- Nodup of stored JTIs, guaranteed by the unique Mongo index on jti. -/
def jtisNodup (tokens : List PasswordResetToken) : Prop :=
  (tokens.map (fun t => t.jti)).Nodup

instance (tokens : List PasswordResetToken) : Decidable (jtisNodup tokens) := by
  unfold jtisNodup
  infer_instance

/-- C3 as amended: ValidatePasswordResetToken is a pure read (it is a
    function of the store alone and returns no state, hence repeated calls
    on an unchanged store agree); it succeeds iff the record for the JTI
    exists with used = false and now is not after expiresAt; it fails
    ErrTokenNotFound when no record matches, ErrTokenAlreadyUsed when the
    record is used, and ErrTokenExpired when the record is unused and now
    is strictly after expiresAt. -/
theorem validateToken_characterization
    (st : ResetState) (jti : String) (now : Int)
    (hnodup : jtisNodup st.tokens) :
    (validatePasswordResetToken st jti now = .ok () ↔
      ∃ t ∈ st.tokens, t.jti = jti ∧ t.used = false ∧ now ≤ t.expiresAt) ∧
    ((∀ t ∈ st.tokens, t.jti ≠ jti) →
      validatePasswordResetToken st jti now = .error .errTokenNotFound) ∧
    (∀ t ∈ st.tokens, t.jti = jti → t.used = true →
      validatePasswordResetToken st jti now = .error .errTokenAlreadyUsed) ∧
    (∀ t ∈ st.tokens, t.jti = jti → t.used = false → t.expiresAt < now →
      validatePasswordResetToken st jti now = .error .errTokenExpired) := by
  have hkey : ∀ t ∈ st.tokens, ∀ t2 ∈ st.tokens, t.jti = t2.jti → t = t2 := by
    intro t ht t2 ht2 hj
    exact List.inj_on_of_nodup_map hnodup ht ht2 hj
  refine ⟨⟨?_, ?_⟩, ?_, ?_, ?_⟩
  · intro hok
    unfold validatePasswordResetToken at hok
    cases hget : getTokenByJTI st.tokens jti with
    | error e => simp [hget] at hok; split at hok <;> simp at hok
    | ok t =>
      rw [hget] at hok
      have ht : t ∈ st.tokens := by
        unfold getTokenByJTI at hget
        cases hf : st.tokens.find? (fun u => u.jti == jti) with
        | none => simp [hf] at hget
        | some u =>
          simp [hf] at hget
          exact hget ▸ List.mem_of_find?_eq_some hf
      have hj : t.jti = jti := by
        unfold getTokenByJTI at hget
        cases hf : st.tokens.find? (fun u => u.jti == jti) with
        | none => simp [hf] at hget
        | some u =>
          simp [hf] at hget
          have := List.find?_some hf
          simpa [hget] using this
      by_cases hu : t.used
      · simp [hu] at hok
      · by_cases hlt : t.expiresAt < now
        · simp [hu, hlt] at hok
        · exact ⟨t, ht, hj, by simpa using hu, by omega⟩
  · rintro ⟨t, ht, hj, hu, hle⟩
    have hf : st.tokens.find? (fun u => u.jti == jti) = some t := by
      cases hf2 : st.tokens.find? (fun u => u.jti == jti) with
      | none =>
        exact absurd (List.find?_eq_none.mp hf2 t ht) (by simp [hj])
      | some u =>
        have hu2 : u ∈ st.tokens := List.mem_of_find?_eq_some hf2
        have hju : u.jti = jti := by simpa using List.find?_some hf2
        rw [hkey u hu2 t ht (by rw [hju, hj])]
    simp [validatePasswordResetToken, getTokenByJTI, hf, hu]
    omega
  · intro hnone
    have hf : st.tokens.find? (fun u => u.jti == jti) = none :=
      List.find?_eq_none.mpr (by intro t ht; simpa using hnone t ht)
    simp [validatePasswordResetToken, getTokenByJTI, hf]
  · intro t ht hj hu
    have hf : st.tokens.find? (fun u => u.jti == jti) = some t := by
      cases hf2 : st.tokens.find? (fun u => u.jti == jti) with
      | none =>
        exact absurd (List.find?_eq_none.mp hf2 t ht) (by simp [hj])
      | some u =>
        have hu2 : u ∈ st.tokens := List.mem_of_find?_eq_some hf2
        have hju : u.jti = jti := by simpa using List.find?_some hf2
        rw [hkey u hu2 t ht (by rw [hju, hj])]
    simp [validatePasswordResetToken, getTokenByJTI, hf, hu]
  · intro t ht hj hu hlt
    have hf : st.tokens.find? (fun u => u.jti == jti) = some t := by
      cases hf2 : st.tokens.find? (fun u => u.jti == jti) with
      | none =>
        exact absurd (List.find?_eq_none.mp hf2 t ht) (by simp [hj])
      | some u =>
        have hu2 : u ∈ st.tokens := List.mem_of_find?_eq_some hf2
        have hju : u.jti = jti := by simpa using List.find?_some hf2
        rw [hkey u hu2 t ht (by rw [hju, hj])]
    simp [validatePasswordResetToken, getTokenByJTI, hf, hu, hlt]

/-- Witness for the amended C3 characterization at a concrete store. -/
theorem validateToken_characterization_witness :
    validatePasswordResetToken raceState ("j1") 50 = .ok () ∧
    validatePasswordResetToken raceState ("zz") 50
      = .error .errTokenNotFound :=
  ⟨(validateToken_characterization raceState ("j1") 50 (by decide)).1.mpr
     ⟨tokenF, by decide, by decide, by decide, by decide⟩,
   (validateToken_characterization raceState ("zz") 50 (by decide)).2.1
     (by decide)⟩

/-- InvalidateUserTokens preserves the stored JTIs elementwise. -/
theorem invalidate_map_jti (tokens : List PasswordResetToken) (uid : String)
    (now : Int) :
    (invalidateUserTokens tokens uid now).map (fun t => t.jti)
      = tokens.map (fun t => t.jti) := by
  unfold invalidateUserTokens
  rw [List.map_map]
  apply List.map_congr_left
  intro t _
  simp only [Function.comp]
  split <;> rfl

/-- Tokens still unused after InvalidateUserTokens are untouched tokens of
    other users. -/
theorem mem_invalidate_unused (tokens : List PasswordResetToken)
    (uid : String) (now : Int) (t : PasswordResetToken)
    (ht : t ∈ invalidateUserTokens tokens uid now) (hu : t.used = false) :
    t ∈ tokens ∧ t.userID ≠ uid := by
  unfold invalidateUserTokens at ht
  rcases List.mem_map.mp ht with ⟨t0, ht0, heq⟩
  by_cases hc : (t0.userID == uid && t0.used == false) = true
  · rw [if_pos hc] at heq
    rw [← heq] at hu
    simp at hu
  · rw [if_neg hc] at heq
    subst heq
    refine ⟨ht0, ?_⟩
    intro hid
    simp [hid, hu] at hc

/-- At most one unused reset token per user, identified by JTI. -/
def atMostOneUnusedPerUser (tokens : List PasswordResetToken) : Prop :=
  ∀ t1 ∈ tokens, ∀ t2 ∈ tokens, t1.used = false → t2.used = false →
    t1.userID = t2.userID → t1.jti = t2.jti

instance (tokens : List PasswordResetToken) :
    Decidable (atMostOneUnusedPerUser tokens) := by
  unfold atMostOneUnusedPerUser
  infer_instance

/-- C2: every requestPasswordReset call preserves JTI uniqueness and the
    at-most-one-unused-token-per-user invariant, and when the email matches
    a user u, every token of u left unused by the call is the newly issued
    one: all previously unused tokens of u were marked used before the new
    token was persisted, so only the newest JTI remains valid. -/
theorem requestPasswordReset_supersedes
    (st : ResetState) (email : String) (now : Int) (jti : String) (ttl : Int)
    (mailOk : Bool) (hnodup : jtisNodup st.tokens)
    (hinv : atMostOneUnusedPerUser st.tokens) :
    jtisNodup (requestPasswordReset st email now jti ttl mailOk).1.tokens ∧
    atMostOneUnusedPerUser
      (requestPasswordReset st email now jti ttl mailOk).1.tokens ∧
    (∀ u, getUserByEmail st.users email = .ok u →
      ∀ t ∈ (requestPasswordReset st email now jti ttl mailOk).1.tokens,
        t.userID = u.id → t.used = false → t.jti = jti) := by
  cases hget : getUserByEmail st.users email with
  | error e =>
    by_cases he : e = .errNoDocuments <;>
      simp_all [requestPasswordReset, hget, he]
  | ok u =>
    set tokens1 := invalidateUserTokens st.tokens u.id now with htokens1
    have hn1 : jtisNodup tokens1 := by
      unfold jtisNodup
      rw [htokens1, invalidate_map_jti]
      exact hnodup
    have hinv1 : atMostOneUnusedPerUser tokens1 := by
      intro t1 ht1 t2 ht2 hu1 hu2 hid
      obtain ⟨hm1, _⟩ := mem_invalidate_unused st.tokens u.id now t1 ht1 hu1
      obtain ⟨hm2, _⟩ := mem_invalidate_unused st.tokens u.id now t2 ht2 hu2
      exact hinv t1 hm1 t2 hm2 hu1 hu2 hid
    have hthird1 : ∀ t ∈ tokens1, t.userID = u.id → t.used = false → False := by
      intro t ht hid hu
      obtain ⟨_, hne⟩ := mem_invalidate_unused st.tokens u.id now t ht hu
      exact hne hid
    cases hcr : createToken tokens1
        { id := (""), userID := u.id, jti := jti, email := u.email,
          used := false, expiresAt := now + ttl, createdAt := now,
          updatedAt := now } now with
    | error e2 =>
      have hstate :
          (requestPasswordReset st email now jti ttl mailOk).1.tokens
            = tokens1 := by
        simp [requestPasswordReset, hget, htokens1.symm, hcr]
      rw [hstate]
      refine ⟨hn1, hinv1, ?_⟩
      rintro u2 hu2 t ht hid hu
      injection hu2 with h12
      subst h12
      exact (hthird1 t ht hid hu).elim
    | ok tokens2 =>
      have hany : (tokens1.any (fun v => v.jti == jti)) = false := by
        by_contra hc
        simp only [Bool.not_eq_false] at hc
        unfold createToken at hcr
        simp [hc] at hcr
      have htokens2 : tokens2 = tokens1 ++
          [{ id := (""), userID := u.id, jti := jti, email := u.email,
             used := false, expiresAt := now + ttl, createdAt := now,
             updatedAt := now }] := by
        unfold createToken at hcr
        simp [hany] at hcr
        exact hcr.symm
      have hstate :
          (requestPasswordReset st email now jti ttl mailOk).1.tokens
            = tokens2 := by
        cases mailOk <;>
          simp [requestPasswordReset, hget, htokens1.symm, hcr]
      rw [hstate, htokens2]
      have hnotin : ∀ t ∈ tokens1, t.jti ≠ jti := by
        intro t ht
        have := List.any_eq_false.mp hany t ht
        simpa using this
      refine ⟨?_, ?_, ?_⟩
      · unfold jtisNodup
        rw [List.map_append, List.nodup_append]
        refine ⟨hn1, List.nodup_singleton _, ?_⟩
        intro x hx hx2
        simp only [List.map_cons, List.map_nil, List.mem_singleton] at hx2
        rcases List.mem_map.mp hx with ⟨t, ht, hjt⟩
        exact hnotin t ht (by rw [hjt, hx2])
      · intro t1 ht1 t2 ht2 hu1 hu2 hid
        rcases List.mem_append.mp ht1 with h1 | h1 <;>
          rcases List.mem_append.mp ht2 with h2 | h2
        · exact hinv1 t1 h1 t2 h2 hu1 hu2 hid
        · simp only [List.mem_singleton] at h2
          subst h2
          exact absurd hid (fun hh => hthird1 t1 h1 (by simpa using hh) hu1)
        · simp only [List.mem_singleton] at h1
          subst h1
          exact absurd hid.symm (fun hh => hthird1 t2 h2 (by simpa using hh) hu2)
        · simp only [List.mem_singleton] at h1 h2
          rw [h1, h2]
      · rintro u2 hu2 t ht hid hu
        injection hu2 with h12
        subst h12
        rcases List.mem_append.mp ht with h1 | h1
        · exact (hthird1 t h1 hid hu).elim
        · simp only [List.mem_singleton] at h1
          rw [h1]

/-- Witness for C2 at a concrete state: a second request for the same user
    supersedes the first token. -/
theorem requestPasswordReset_supersedes_witness :
    jtisNodup (requestPasswordReset raceState ("alice@example.com") 10 ("j2")
      100 true).1.tokens ∧
    atMostOneUnusedPerUser (requestPasswordReset raceState
      ("alice@example.com") 10 ("j2") 100 true).1.tokens ∧
    (∀ u, getUserByEmail raceState.users ("alice@example.com") = .ok u →
      ∀ t ∈ (requestPasswordReset raceState ("alice@example.com") 10 ("j2")
          100 true).1.tokens,
        t.userID = u.id → t.used = false → t.jti = ("j2")) :=
  requestPasswordReset_supersedes raceState ("alice@example.com") 10 ("j2")
    100 true (by decide) (by decide)

/-- A token freshly generated by generateAuthToken verifies at issuance
    time under the same secret against an authenticator configured with the
    issuer as both audience and issuer, yielding its exact claims. -/
theorem validate_generated (cfg : TokenConfig) (userID sessionID secret : String)
    (ttl now : Int) (h : 0 < ttl) :
    validateTokenWithClaims { audience := cfg.issuer, issuer := cfg.issuer }
      (generateAuthToken cfg userID sessionID secret ttl now) secret now
      = .ok
        { userID := userID, sessionID := sessionID,
          registered :=
            { issuer := cfg.issuer, audience := [cfg.issuer], subject := (""),
              expiresAt := some (now + ttl), issuedAt := some now,
              notBefore := some now } } := by
  have h1 : now < now + ttl := by omega
  simp [validateTokenWithClaims, generateAuthToken, jwtGenerateToken, JWTAlg.isHMAC,
    h1, lt_irrefl]

/-- C6: with valid credentials, login succeeds and returns an access token
    and a refresh token that verify under the access and refresh secrets
    respectively, decoding to the logged-in user's identifier and the
    identifier of the session record this login created, with issued-at now
    and expiry now plus the respective configured TTL. -/
theorem login_tokens_verify
    (sec : SecurityModel) (cfg : TokenConfig) (st : AuthState)
    (email password sid : String) (now : Int) (u : User)
    (hu : getUserByEmail st.users email = .ok u)
    (hv : sec.verifyPassword password u.passwordHash = true)
    (hfresh : ∀ s ∈ st.sessions, s.id ≠ sid)
    (ha : 0 < cfg.accessTokenExpiresIn) (hr : 0 < cfg.refreshTokenExpiresIn) :
    ∃ tk : Tokens,
      (login sec cfg st email password sid now).2 = .ok tk ∧
      (∃ c, validateTokenWithClaims { audience := cfg.issuer, issuer := cfg.issuer }
          tk.accessToken cfg.accessTokenSecret now = .ok c ∧
        c.userID = u.id ∧ c.sessionID = sid ∧
        c.registered.issuedAt = some now ∧
        c.registered.expiresAt = some (now + cfg.accessTokenExpiresIn)) ∧
      (∃ c, validateTokenWithClaims { audience := cfg.issuer, issuer := cfg.issuer }
          tk.refreshToken cfg.refreshTokenSecret now = .ok c ∧
        c.userID = u.id ∧ c.sessionID = sid ∧
        c.registered.issuedAt = some now ∧
        c.registered.expiresAt = some (now + cfg.refreshTokenExpiresIn)) ∧
      (∃ s ∈ (login sec cfg st email password sid now).1.sessions,
        s.id = sid ∧ s.userID = u.id) := by
  have hanyS : (st.sessions.any (fun s => s.id == sid)) = false := by
    rw [List.any_eq_false]
    intro s hs
    simpa using hfresh s hs
  have hlogin :
      login sec cfg st email password sid now
        = createAuthSession cfg
            { st with identities := updateLastLogin st.identities u.id now }
            u.id sid now := by
    simp [login, hu, hv]
  rw [hlogin]
  unfold createAuthSession
  have hcs : createSession st.sessions u.id sid now
      = .ok (st.sessions ++
          [({ id := sid, userID := u.id, accessToken := none,
              refreshToken := none, accessTokenExpiresAt := 0,
              refreshTokenExpiresAt := 0, createdAt := now,
              updatedAt := now } : Session)]) := by
    simp [createSession, hanyS]
  rw [hcs]
  have hany2 :
      ((st.sessions ++
          [({ id := sid, userID := u.id, accessToken := none,
              refreshToken := none, accessTokenExpiresAt := 0,
              refreshTokenExpiresAt := 0, createdAt := now,
              updatedAt := now } : Session)]).any (fun s => s.id == sid)) = true := by
    simp [List.any_append]
  unfold updateTokens
  simp only [hany2, if_true]
  refine ⟨_, rfl, ?_, ?_, ?_⟩
  · exact ⟨_, validate_generated cfg u.id sid cfg.accessTokenSecret
      cfg.accessTokenExpiresIn now ha, rfl, rfl, rfl, rfl⟩
  · exact ⟨_, validate_generated cfg u.id sid cfg.refreshTokenSecret
      cfg.refreshTokenExpiresIn now hr, rfl, rfl, rfl, rfl⟩
  · refine ⟨_, List.mem_map_of_mem _ (List.mem_append_right _
      (List.mem_singleton.mpr rfl)), ?_⟩
    simp

/-- Witness for C6 at a concrete state. -/
theorem login_tokens_verify_witness :
    ∃ tk : Tokens,
      (login secF cfgF { users := [userF], identities := [], sessions := [] }
        ("alice@example.com") ("pw1") ("s1") 7).2 = .ok tk ∧
      (∃ c, validateTokenWithClaims
          { audience := cfgF.issuer, issuer := cfgF.issuer }
          tk.accessToken cfgF.accessTokenSecret 7 = .ok c ∧
        c.userID = userF.id ∧ c.sessionID = ("s1") ∧
        c.registered.issuedAt = some 7 ∧
        c.registered.expiresAt = some (7 + cfgF.accessTokenExpiresIn)) ∧
      (∃ c, validateTokenWithClaims
          { audience := cfgF.issuer, issuer := cfgF.issuer }
          tk.refreshToken cfgF.refreshTokenSecret 7 = .ok c ∧
        c.userID = userF.id ∧ c.sessionID = ("s1") ∧
        c.registered.issuedAt = some 7 ∧
        c.registered.expiresAt = some (7 + cfgF.refreshTokenExpiresIn)) ∧
      (∃ s ∈ (login secF cfgF
          { users := [userF], identities := [], sessions := [] }
          ("alice@example.com") ("pw1") ("s1") 7).1.sessions,
        s.id = ("s1") ∧ s.userID = userF.id) :=
  login_tokens_verify secF cfgF _ _ _ _ 7 userF rfl (by decide) (by decide)
    (by decide) (by decide)

/-- C9: the gate forwards exempt methods unmodified without looking at the
    metadata; for non-exempt methods every extraction or validation failure
    becomes an Unauthenticated status and a success attaches the decoded
    claims under the well-known context key before invoking the handler;
    and the extraction itself fails on absent metadata, on a missing
    Authorization header and on a header that is not exactly a two-part
    case-insensitive Bearer credential, while a well-formed header hands
    the token string to the authenticator and returns its verdict. -/
theorem gate_behaviour {A : Type}
    (exempt : List String) (vjwt : String → Except String JWTClaims)
    (method : String) (ctx : IncomingCtx) (handler : IncomingCtx → A) :
    (exempt.contains method = true →
      newJWTInterceptor exempt vjwt method ctx handler = .ok (handler ctx)) ∧
    (exempt.contains method = false →
      ∀ e, extractAndValidateJWT vjwt ctx = .error e →
        newJWTInterceptor exempt vjwt method ctx handler
          = .error (.unauthenticated e)) ∧
    (exempt.contains method = false →
      ∀ c, extractAndValidateJWT vjwt ctx = .ok c →
        newJWTInterceptor exempt vjwt method ctx handler
          = .ok (handler { ctx with attachedClaims := some c })) ∧
    (ctx.md = none → ∃ m, extractAndValidateJWT vjwt ctx = .error m) ∧
    (∀ md, ctx.md = some md → mdGet md ("Authorization") = [] →
      ∃ m, extractAndValidateJWT vjwt ctx = .error m) ∧
    (∀ md hd tl, ctx.md = some md → mdGet md ("Authorization") = hd :: tl →
      ∀ scheme tokenString, splitN2Space hd = [scheme, tokenString] →
        (lowerStr scheme = ("bearer") →
          extractAndValidateJWT vjwt ctx = vjwt tokenString) ∧
        (lowerStr scheme ≠ ("bearer") →
          ∃ m, extractAndValidateJWT vjwt ctx = .error m)) ∧
    (∀ md hd tl, ctx.md = some md → mdGet md ("Authorization") = hd :: tl →
      (∀ x y, splitN2Space hd ≠ [x, y]) →
      ∃ m, extractAndValidateJWT vjwt ctx = .error m) := by
  refine ⟨?_, ?_, ?_, ?_, ?_, ?_, ?_⟩
  · intro hex
    simp only [newJWTInterceptor, hex]
    simp
  · intro hex e he
    simp only [newJWTInterceptor, hex, he]
    simp
  · intro hex c hc
    simp only [newJWTInterceptor, hex, hc]
    simp
  · intro hmd
    exact ⟨("missing metadata"), by simp [extractAndValidateJWT, hmd]⟩
  · intro md hmd hget
    exact ⟨("missing authorization header"),
      by simp [extractAndValidateJWT, hmd, hget]⟩
  · intro md hd tl hmd hget scheme tokenString hsplit
    constructor
    · intro hsch
      simp [extractAndValidateJWT, hmd, hget, hsplit, hsch]
    · intro hsch
      refine ⟨("invalid authorization header format"), ?_⟩
      simp only [extractAndValidateJWT, hmd, hget, hsplit]
      rw [if_neg (by simpa using hsch)]
  · intro md hd tl hmd hget hsplit
    refine ⟨("invalid authorization header format"), ?_⟩
    simp only [extractAndValidateJWT, hmd, hget]

/-- Concrete claims for the C9 witness. -/
def claimsW : JWTClaims :=
  { userID := ("u1"), sessionID := ("s1"),
    registered :=
      { issuer := ("money-tracker"), audience := [("money-tracker")],
        subject := (""), expiresAt := some 10, issuedAt := some 0,
        notBefore := some 0 } }

/-- Concrete validator for the C9 witness: accepts exactly the string
    tok1. -/
def vjwtW : String → Except String JWTClaims :=
  fun s => if s == ("tok1") then .ok claimsW else .error ("invalid token")

/-- Witness for C9: an exempt call is forwarded untouched, a call without
    metadata is rejected, and a well-formed bearer call reaches the handler
    with the claims attached. -/
theorem gate_behaviour_witness :
    newJWTInterceptor [("/auth.v1.AuthService/Login")] vjwtW
      ("/auth.v1.AuthService/Login")
      { md := none, attachedClaims := none }
      (fun c => c.attachedClaims)
      = .ok none ∧
    newJWTInterceptor [("/auth.v1.AuthService/Login")] vjwtW
      ("/auth.v1.AuthService/GetUser")
      { md := none, attachedClaims := none }
      (fun c => c.attachedClaims)
      = .error (.unauthenticated ("missing metadata")) ∧
    newJWTInterceptor [("/auth.v1.AuthService/Login")] vjwtW
      ("/auth.v1.AuthService/GetUser")
      { md := some [(("authorization"), ("Bearer tok1"))], attachedClaims := none }
      (fun c => c.attachedClaims)
      = .ok (some claimsW) :=
  ⟨(gate_behaviour _ vjwtW _ _ _).1 (by decide),
   (gate_behaviour _ vjwtW _ _ _).2.1 (by decide) _ rfl,
   (gate_behaviour _ vjwtW _ _ _).2.2.1 (by decide) claimsW rfl⟩

end Cashflower







